import Mathlib

/-!
Verification of `nova/virt/vmwareapi/vm_util.py`: a shallow embedding of the
datastore path codec, the spec-builder functions and the paginated object
resolver of the module, together with theorems about the properties these
functions satisfy.

Conventions of the embedding:
* SOAP factory records (`client_factory.create(...)`) become Lean structures;
  a field that the Python code may leave unassigned is an `Option` defaulting
  to `none`.
* Python strings are `String`, except in the datastore path codec, which works
  on `List Char` so that index-level splitting can be reasoned about.
* `None`-able arguments become `Option`; Python truthiness of a string is
  modelled as comparison with `""`.
* The paginated remote session is modelled by the list of pages the remote
  side would serve: the head is the initial result set, the later elements are
  what successive `continue_to_get_objects` calls return.  The resolver
  functions additionally report how many next-page fetches and how many
  cancel calls they issue, so that the cancellation discipline is provable.
* In-place mutation of a caller-supplied argument (`create_network_spec`
  rewrites `vif_info['vif_model']`) is modelled by returning the updated
  record alongside the constructed payload.
-/

namespace VmUtil

/-! ### Datastore path codec -/

/-- The whitespace characters stripped by Python's `str.strip()`. -/
def isPySpace (c : Char) : Bool :=
  c = ' ' || c = '\t' || c = '\n' || c = '\r' || c = Char.ofNat 11 || c = Char.ofNat 12

/-- Python `s.strip()`: drop whitespace from both ends. -/
def pyStrip (s : List Char) : List Char :=
  (((s.dropWhile isPySpace).reverse).dropWhile isPySpace).reverse

/-- Python `s.split(c, 1)`: the part before the first occurrence of `c`, and
the part after it (`none` when `c` does not occur, i.e. the split has one
element). -/
def pySplit1 (c : Char) : List Char → List Char × Option (List Char)
  | [] => ([], none)
  | x :: xs =>
    if x = c then ([], some xs)
    else
      let r := pySplit1 c xs
      (x :: r.1, r.2)

/-- `build_datastore_path`: `"[%s] %s" % (datastore_name, path)`. -/
def build_datastore_path (datastore_name path : List Char) : List Char :=
  '[' :: (datastore_name ++ ']' :: ' ' :: path)

/-- `split_datastore_path`: take the part after the first `'['`, split it at
the first `']'`; the part before is the datastore name, the (stripped) part
after is the path.  A path without `'['` raises `IndexError` in Python,
modelled by `none`. -/
def split_datastore_path (datastore_path : List Char) :
    Option (List Char × List Char) :=
  match (pySplit1 '[' datastore_path).2 with
  | none => none
  | some s =>
    match pySplit1 ']' s with
    | (datastore_url, none) => some (datastore_url, pyStrip [])
    | (datastore_url, some path) => some (datastore_url, pyStrip path)

/-! ### Managed object references and property-query results -/

structure MOR where
  _type : String
  value : String
  deriving DecidableEq, Repr

structure DynamicProperty (V : Type) where
  name : String
  val : V
  deriving DecidableEq, Repr

structure ObjectContent (V : Type) where
  obj : MOR
  propSet : List (DynamicProperty V)
  deriving DecidableEq, Repr

/-- One page of a paginated property query: the entries plus the optional
continuation token (`getattr(results, 'token', None)`). -/
structure RetrieveResult (α : Type) where
  objects : List α
  token : Option String := none
  deriving DecidableEq, Repr

def _get_token {α : Type} (results : RetrieveResult α) : Option String :=
  results.token

/-- `_get_reference_for_value`: first entry whose `obj.value` equals the
target. -/
def _get_reference_for_value {V : Type} (results : RetrieveResult (ObjectContent V))
    (value : String) : Option (ObjectContent V) :=
  results.objects.find? (fun object => object.obj.value == value)

/-- `_get_object_for_value`: the `obj` of the first entry whose first declared
property has the target value.  (An entry with an empty `propSet` would raise
in Python; it is treated as a non-match here and never exercised.) -/
def _get_object_for_value {V : Type} [BEq V] (results : RetrieveResult (ObjectContent V))
    (value : V) : Option MOR :=
  (results.objects.find?
      (fun object => object.propSet.head?.map DynamicProperty.val == some value)).map
    ObjectContent.obj

/-- `_get_object_from_results`: find-first traversal of the paginated result.
`pages` is the sequence of pages the session serves (head = the page passed
in, tail = what `continue_to_get_objects` returns).  Returns the found object
together with the number of next-page fetches and of cancel calls issued. -/
def _get_object_from_results {α β γ : Type} (pages : List (RetrieveResult α))
    (value : γ) (func : RetrieveResult α → γ → Option β) :
    Option β × Nat × Nat :=
  match pages with
  | [] => (none, 0, 0)
  | results :: rest =>
    let token := _get_token results
    match func results value with
    | some object => (some object, 0, if token.isSome then 1 else 0)
    | none =>
      match token with
      | some _ =>
        let r := _get_object_from_results rest value func
        (r.1, r.2.1 + 1, r.2.2)
      | none => (none, 0, 0)

/-! ### Spec-builder data model -/

structure VirtualDeviceConnectInfo where
  startConnected : Bool
  allowGuestControl : Bool
  connected : Bool
  deriving DecidableEq, Repr

/-- Backing of a virtual disk.  `parent` is only ever assigned on the shallow
copy made for a linked clone, hence the nested recursion. -/
inductive DiskBackingInfo : Type where
  | mk (kind : String) (diskMode : String) (compatibilityMode : Option String)
      (deviceName : Option String) (thinProvisioned : Option Bool)
      (eagerlyScrub : Option Bool) (fileName : String)
      (parent : Option DiskBackingInfo) : DiskBackingInfo

def DiskBackingInfo.kind : DiskBackingInfo → String
  | .mk k _ _ _ _ _ _ _ => k

def DiskBackingInfo.diskMode : DiskBackingInfo → String
  | .mk _ dm _ _ _ _ _ _ => dm

def DiskBackingInfo.compatibilityMode : DiskBackingInfo → Option String
  | .mk _ _ cm _ _ _ _ _ => cm

def DiskBackingInfo.deviceName : DiskBackingInfo → Option String
  | .mk _ _ _ dn _ _ _ _ => dn

def DiskBackingInfo.thinProvisioned : DiskBackingInfo → Option Bool
  | .mk _ _ _ _ tp _ _ _ => tp

def DiskBackingInfo.eagerlyScrub : DiskBackingInfo → Option Bool
  | .mk _ _ _ _ _ es _ _ => es

def DiskBackingInfo.fileName : DiskBackingInfo → String
  | .mk _ _ _ _ _ _ fn _ => fn

def DiskBackingInfo.parent : DiskBackingInfo → Option DiskBackingInfo
  | .mk _ _ _ _ _ _ _ p => p

structure VirtualDisk where
  backing : DiskBackingInfo
  connectable : VirtualDeviceConnectInfo
  key : Int
  controllerKey : Int
  unitNumber : Int
  capacityInKB : Int

structure VirtualController where
  kind : String
  key : Int
  busNumber : Int
  sharedBus : String
  deriving DecidableEq, Repr

inductive NetBacking : Type where
  | opaqueNetwork (opaqueNetworkId opaqueNetworkType : String)
  | distributedVirtualPort (switchUuid portgroupKey : String)
  | networkName (deviceName : String)
  deriving DecidableEq, Repr

structure NetworkDevice where
  kindName : String
  connectable : VirtualDeviceConnectInfo
  backing : NetBacking
  key : Int
  addressType : String
  macAddress : String
  wakeOnLanEnabled : Bool
  deriving DecidableEq, Repr

structure CdromBacking where
  datastore : MOR
  fileName : String
  deriving DecidableEq, Repr

structure VirtualCdrom where
  backing : CdromBacking
  controllerKey : Int
  unitNumber : Int
  key : Int
  connectable : VirtualDeviceConnectInfo
  deriving DecidableEq, Repr

inductive Device : Type where
  | controller (c : VirtualController)
  | disk (d : VirtualDisk)
  | cdrom (c : VirtualCdrom)
  | networkAdapter (n : NetworkDevice)

def Device.key : Device → Int
  | .controller c => c.key
  | .disk d => d.key
  | .cdrom c => c.key
  | .networkAdapter n => n.key

structure VirtualDeviceConfigSpec where
  operation : Option String := none
  fileOperation : Option String := none
  device : Option Device := none

structure OptionValue where
  key : String
  value : String
  deriving DecidableEq, Repr

structure VirtualMachineFileInfo where
  vmPathName : String
  deriving DecidableEq, Repr

structure ToolsConfigInfo where
  afterPowerOn : Bool
  afterResume : Bool
  beforeGuestStandby : Bool
  beforeGuestShutdown : Bool
  beforeGuestReboot : Bool
  deriving DecidableEq, Repr

structure VirtualMachineConfigSpec where
  name : Option String := none
  guestId : Option String := none
  nestedHVEnabled : Option String := none
  files : Option VirtualMachineFileInfo := none
  tools : Option ToolsConfigInfo := none
  numCPUs : Option Int := none
  memoryMB : Option Int := none
  deviceChange : Option (List VirtualDeviceConfigSpec) := none
  extraConfig : Option (List OptionValue) := none

/-- The `network_ref` dict of a virtual-interface descriptor. -/
structure NetworkRef where
  type : String
  network_id : String
  network_type : String
  dvsw : String
  dvpg : String
  deriving DecidableEq, Repr

/-- A `vif_info` dict. -/
structure VifInfo where
  vif_model : String
  network_ref : Option NetworkRef
  network_name : String
  mac_address : String
  iface_id : String
  deriving DecidableEq, Repr

/-- The fields of the `instance` dict that this module reads. -/
structure Instance where
  uuid : String
  name : String
  vcpus : Int
  memory_mb : Int
  deriving DecidableEq, Repr

inductive NovaException : Type where
  | instanceNotFound (instance_id : String)
  | datastoreNotFound (message : Option String)
  deriving DecidableEq, Repr

/-! ### Spec builders -/

/-- `create_controller_spec`: map the adapter type to a controller variant,
bus number 0, shared bus `"noSharing"`, operation `"add"`. -/
def create_controller_spec (key : Int) (adapter_type : String) :
    VirtualDeviceConfigSpec :=
  let kind :=
    if adapter_type = "busLogic" then "VirtualBusLogicController"
    else if adapter_type = "lsiLogicsas" then "VirtualLsiLogicSASController"
    else "VirtualLsiLogicController"
  { operation := some "add",
    device := some (.controller { kind := kind, key := key, busNumber := 0,
                                  sharedBus := "noSharing" }) }

/-- `create_network_spec`: build the network-adapter device-change entry.  The
function mutates its caller's `vif_info` dict when the model is `"e1000"`;
the updated record is returned as the second component. -/
def create_network_spec (vif_info : VifInfo) :
    VirtualDeviceConfigSpec × VifInfo :=
  let vif_info :=
    if vif_info.vif_model = "e1000" then { vif_info with vif_model := "VirtualE1000" }
    else vif_info
  let backing : NetBacking :=
    match vif_info.network_ref with
    | some network_ref =>
      if network_ref.type = "OpaqueNetwork" then
        .opaqueNetwork network_ref.network_id network_ref.network_type
      else if network_ref.type = "DistributedVirtualPortgroup" then
        .distributedVirtualPort network_ref.dvsw network_ref.dvpg
      else .networkName vif_info.network_name
    | none => .networkName vif_info.network_name
  let net_device : NetworkDevice :=
    { kindName := "ns0:" ++ vif_info.vif_model,
      connectable := ⟨true, true, true⟩,
      backing := backing,
      key := -47,
      addressType := "manual",
      macAddress := vif_info.mac_address,
      wakeOnLanEnabled := true }
  ({ operation := some "add", device := some (.networkAdapter net_device) }, vif_info)

/-- `create_virtual_disk_spec`: build the device-change entry that creates or
attaches one virtual disk. -/
def create_virtual_disk_spec (controller_key : Int) (disk_type : String)
    (file_path : Option String) (disk_size : Option Int) (linked_clone : Bool)
    (unit_number : Option Int) (device_name : Option String) :
    VirtualDeviceConfigSpec :=
  let fileOp : Option String :=
    if file_path.isNone || linked_clone then some "create" else none
  let disk_file_backing : DiskBackingInfo :=
    if disk_type = "rdm" ∨ disk_type = "rdmp" then
      .mk "VirtualDiskRawDiskMappingVer1BackingInfo" "independent_persistent"
        (some (if disk_type = "rdm" then "virtualMode" else "physicalMode"))
        (some (device_name.getD "")) none none (file_path.getD "") none
    else
      .mk "VirtualDiskFlatVer2BackingInfo" "persistent" none none
        (if disk_type = "thin" then some true else none)
        (if disk_type = "thin" then none
         else if disk_type = "eagerZeroedThick" then some true else none)
        (file_path.getD "") none
  let backing : DiskBackingInfo :=
    if !linked_clone then disk_file_backing
    else
      match disk_file_backing with
      | .mk k dm cm dn tp es _ _ => .mk k dm cm dn tp es "" (some disk_file_backing)
  let virtual_disk : VirtualDisk :=
    { backing := backing,
      connectable := ⟨true, false, true⟩,
      key := -100,
      controllerKey := controller_key,
      unitNumber := unit_number.getD 0,
      capacityInKB := disk_size.getD 0 }
  { operation := some "add", fileOperation := fileOp,
    device := some (.disk virtual_disk) }

/-- `create_virtual_cdrom_spec`: build the cdrom device-change entry. -/
def create_virtual_cdrom_spec (datastore : MOR) (controller_key : Int)
    (file_path : String) (cdrom_unit_number : Int) : VirtualDeviceConfigSpec :=
  { operation := some "add",
    device := some (.cdrom
      { backing := ⟨datastore, file_path⟩,
        controllerKey := controller_key,
        unitNumber := cdrom_unit_number,
        key := -1,
        connectable := ⟨true, false, true⟩ }) }

/-- `get_vmdk_attach_config_spec`: without an explicit controller key, IDE
uses the pre-existing key 200, any other adapter type synthesizes a
controller with provisional key −101 prepended before the disk entry. -/
def get_vmdk_attach_config_spec (adapter_type disk_type : String)
    (file_path : Option String) (disk_size : Option Int) (linked_clone : Bool)
    (controller_key : Option Int) (unit_number : Option Int)
    (device_name : Option String) : VirtualMachineConfigSpec :=
  let p : Int × List VirtualDeviceConfigSpec :=
    match controller_key with
    | some k => (k, [])
    | none =>
      if adapter_type = "ide" then (200, [])
      else (-101, [create_controller_spec (-101) adapter_type])
  let virtual_device_config_spec :=
    create_virtual_disk_spec p.1 disk_type file_path disk_size linked_clone
      unit_number device_name
  { deviceChange := some (p.2 ++ [virtual_device_config_spec]) }

/-- `get_cdrom_attach_config_spec`: one cdrom entry on IDE controller 200. -/
def get_cdrom_attach_config_spec (datastore : MOR) (file_path : String)
    (cdrom_unit_number : Int) : VirtualMachineConfigSpec :=
  { deviceChange :=
      some [create_virtual_cdrom_spec datastore 200 file_path cdrom_unit_number] }

/-- `get_vm_extra_config_spec`: one option entry per key/value pair; the
`extraConfig` field is assigned inside the per-pair loop, so it is only ever
assigned when the mapping is non-empty. -/
def get_vm_extra_config_spec (extra_opts : List (String × String)) :
    VirtualMachineConfigSpec :=
  let config_spec : VirtualMachineConfigSpec := {}
  (extra_opts.foldl
    (fun (acc : List OptionValue × VirtualMachineConfigSpec) kv =>
      let opt : OptionValue := ⟨kv.1, kv.2⟩
      let extra_config := acc.1 ++ [opt]
      (extra_config, { acc.2 with extraConfig := some extra_config }))
    ([], config_spec)).2

/-- The `nvp.iface-id.<i>` option entries of `get_vm_create_spec`; the index
advances only for interfaces carrying a (truthy) `iface_id`. -/
def iface_id_opts : List VifInfo → Nat → List OptionValue
  | [], _ => []
  | vif_info :: rest, i =>
    if vif_info.iface_id ≠ "" then
      ⟨"nvp.iface-id." ++ toString i, vif_info.iface_id⟩ :: iface_id_opts rest (i + 1)
    else iface_id_opts rest i

/-- `get_vm_create_spec`: identity, guest kind, nested-HV flag, file info,
tool flags, sizing, one network-adapter entry per interface, and the
`nvp.vm-uuid` plus indexed `nvp.iface-id` options. -/
def get_vm_create_spec (inst : Instance) (data_store_name : String)
    (vif_infos : List VifInfo) (os_type : String) : VirtualMachineConfigSpec :=
  { name := some inst.uuid,
    guestId := some os_type,
    nestedHVEnabled := if os_type = "vmkernel5Guest" then some "True" else none,
    files := some ⟨"[" ++ data_store_name ++ "]"⟩,
    tools := some ⟨true, true, true, true, true⟩,
    numCPUs := some inst.vcpus,
    memoryMB := some inst.memory_mb,
    deviceChange := some (vif_infos.map (fun vif_info => (create_network_spec vif_info).1)),
    extraConfig := some (⟨"nvp.vm-uuid", inst.uuid⟩ :: iface_id_opts vif_infos 0) }

/-! ### Helper accessors used by the theorems -/

/-- The disk device held by a device-change entry, when there is one. -/
def diskOfSpec (s : VirtualDeviceConfigSpec) : Option VirtualDisk :=
  match s.device with
  | some (.disk d) => some d
  | _ => none

/-- The disk mode of the disk backing held by a device-change entry. -/
def diskModeOfSpec (s : VirtualDeviceConfigSpec) : Option String :=
  (diskOfSpec s).map (fun d => d.backing.diskMode)

/-- The provisional keys of all devices added by a payload, in order. -/
def payload_device_keys (config_spec : VirtualMachineConfigSpec) : List Int :=
  (config_spec.deviceChange.getD []).filterMap (fun dcs => dcs.device.map Device.key)

/-! ### VM lookup

Both lookups issue the query `get_objects("VirtualMachine", ["name"])`; the
session is modelled by the pages that query serves. -/

def get_vm_ref_from_name (vms : List (RetrieveResult (ObjectContent String)))
    (vm_name : String) : Option MOR :=
  (_get_object_from_results vms vm_name
    (fun results value => _get_object_for_value results value)).1

def get_vm_ref_from_uuid (vms : List (RetrieveResult (ObjectContent String)))
    (instance_uuid : String) : Option MOR :=
  (_get_object_from_results vms instance_uuid
    (fun results value => _get_object_for_value results value)).1

/-- `get_vm_ref`: uuid match first, then name match, else `InstanceNotFound`
keyed by the uuid. -/
def get_vm_ref (vms : List (RetrieveResult (ObjectContent String)))
    (inst : Instance) : Except NovaException MOR :=
  match get_vm_ref_from_uuid vms inst.uuid with
  | some vm_ref => .ok vm_ref
  | none =>
    match get_vm_ref_from_name vms inst.name with
    | some vm_ref => .ok vm_ref
    | none => .error (.instanceNotFound inst.uuid)

/-! ### Datastore selection -/

/-- A property value as served by the property collector for datastores. -/
inductive PropVal : Type where
  | s (v : String)
  | i (v : Int)
  | b (v : Bool)
  deriving DecidableEq, Repr

/-- Python truthiness of a property value. -/
def PropVal.truthy : PropVal → Bool
  | .s v => v ≠ ""
  | .i v => v ≠ 0
  | .b v => v

/-- The string content of a property value (regex matching applies only to
string-valued names). -/
def PropVal.asString : PropVal → String
  | .s v => v
  | .i _ => ""
  | .b _ => ""

/-- A compiled `datastore_regex`: its match function and its `pattern` text
(used in the not-found message). -/
structure DSRegex where
  pattern : String
  matchfn : String → Bool

/-- `dict([(prop.name, prop.val) for prop in elem.propSet])[key]`: the value
bound to `key`, later bindings overriding earlier ones.  A missing key would
raise `KeyError` in Python; it is modelled by an empty-string value and never
exercised by well-formed result sets. -/
def propset_get (propSet : List (DynamicProperty PropVal)) (key : String) : PropVal :=
  (((propSet.reverse).find? (fun p => p.name == key)).map DynamicProperty.val).getD
    (PropVal.s "")

/-- `_get_datastore_ref_and_name`: the first entry of one page whose type is
VMFS or NFS, which is accessible, and which matches the optional name
pattern; yields `(reference, name, capacity, freeSpace)`. -/
def _get_datastore_ref_and_name (objects : List (ObjectContent PropVal))
    (datastore_regex : Option DSRegex) :
    Option (MOR × PropVal × PropVal × PropVal) :=
  match objects with
  | [] => none
  | elem :: rest =>
    let ds_type := propset_get elem.propSet "summary.type"
    let ds_name := propset_get elem.propSet "summary.name"
    if (ds_type = PropVal.s "VMFS" ∨ ds_type = PropVal.s "NFS")
        ∧ (propset_get elem.propSet "summary.accessible").truthy = true then
      if (match datastore_regex with
          | none => true
          | some datastore_regex => datastore_regex.matchfn ds_name.asString) = true then
        some (elem.obj, ds_name,
              propset_get elem.propSet "summary.capacity",
              propset_get elem.propSet "summary.freeSpace")
      else _get_datastore_ref_and_name rest datastore_regex
    else _get_datastore_ref_and_name rest datastore_regex

/-- `get_datastore_ref_and_name`, from the point where the candidate pages
are in hand: walk the pages, return the first qualifying datastore, and on
exhaustion raise `DatastoreNotFound` — with the regex message exactly when a
pattern was supplied and the final page was token-less (a falsy page, the
`[]` case, reproduces the bare raise at the end of the source). -/
def get_datastore_ref_and_name (pages : List (RetrieveResult (ObjectContent PropVal)))
    (datastore_regex : Option DSRegex) :
    Except NovaException (MOR × PropVal × PropVal × PropVal) :=
  match pages with
  | [] => .error (.datastoreNotFound none)
  | data_stores :: rest =>
    match _get_datastore_ref_and_name data_stores.objects datastore_regex with
    | some results => .ok results
    | none =>
      match _get_token data_stores with
      | some _ => get_datastore_ref_and_name rest datastore_regex
      | none =>
        match datastore_regex with
        | some datastore_regex =>
          .error (.datastoreNotFound
            (some ("Datastore regex " ++ datastore_regex.pattern
                   ++ " did not match any datastores")))
        | none => .error (.datastoreNotFound none)

end VmUtil

namespace VmUtil

/-! ### Theorems: datastore path codec (C2) -/

theorem pySplit1_append_of_not_mem {c : Char} :
    ∀ (l r : List Char), c ∉ l → pySplit1 c (l ++ c :: r) = (l, some r)
  | [], r, _ => by simp [pySplit1]
  | x :: l, r, h => by
    have hx : ¬ x = c := fun hxc => h (hxc ▸ List.mem_cons_self x l)
    have ih := pySplit1_append_of_not_mem l r (fun hm => h (List.mem_cons_of_mem _ hm))
    simp [pySplit1, hx, ih]

theorem pyStrip_space_cons (path : List Char) : pyStrip (' ' :: path) = pyStrip path := by
  simp [pyStrip, List.dropWhile, isPySpace]

/-- C2: the datastore path codec round-trips: for any name and path free of
bracket characters, `split_datastore_path (build_datastore_path name path)`
yields the name and the whitespace-stripped path; and building from
`"datastore1"` and `"a/b.vmdk"` yields `"[datastore1] a/b.vmdk"`. -/
theorem split_build_datastore_path_roundtrip (name path : List Char)
    (h1 : '[' ∉ name) (h2 : ']' ∉ name) (h3 : '[' ∉ path) (h4 : ']' ∉ path) :
    split_datastore_path (build_datastore_path name path) = some (name, pyStrip path)
    ∧ build_datastore_path "datastore1".toList "a/b.vmdk".toList
        = "[datastore1] a/b.vmdk".toList := by
  constructor
  · have hsplit1 : pySplit1 '[' (build_datastore_path name path)
        = ([], some (name ++ ']' :: ' ' :: path)) := by
      simp [build_datastore_path, pySplit1]
    have hsplit2 : pySplit1 ']' (name ++ ']' :: ' ' :: path)
        = (name, some (' ' :: path)) := pySplit1_append_of_not_mem name (' ' :: path) h2
    simp [split_datastore_path, hsplit1, hsplit2, pyStrip_space_cons]
  · rfl

theorem split_build_datastore_path_roundtrip_witness :
    split_datastore_path (build_datastore_path "ds1".toList "  a/b.vmdk ".toList)
      = some ("ds1".toList, pyStrip "  a/b.vmdk ".toList) :=
  (split_build_datastore_path_roundtrip "ds1".toList "  a/b.vmdk ".toList
    (by decide) (by decide) (by decide) (by decide)).1

/-! ### Theorems: find-first traversal (C1) -/

/-- C1: in `_get_object_from_results`, a cancel is issued exactly when a match
is found while the current page still carries a token: with any number of
token-carrying, match-free pages first, a match on a final token-less page
gives one fetch per skipped page and zero cancels; a match on a page that
still carries a token gives exactly one cancel; and a run in which no page
matches issues no cancel and finds nothing. -/
theorem get_object_from_results_cancel_discipline {β γ : Type}
    (func : RetrieveResult (ObjectContent String) → γ → Option β)
    (value : γ) (pre : List (RetrieveResult (ObjectContent String)))
    (lastPage : RetrieveResult (ObjectContent String)) (e : β)
    (hpre : ∀ q ∈ pre, (q.token.isSome ∧ func q value = none))
    (hmatch : func lastPage value = some e) :
    (lastPage.token = none →
      _get_object_from_results (pre ++ [lastPage]) value func
        = (some e, pre.length, 0))
    ∧ (∀ tok rest, lastPage.token = some tok →
      _get_object_from_results (pre ++ lastPage :: rest) value func
        = (some e, pre.length, 1))
    ∧ (∀ pages : List (RetrieveResult (ObjectContent String)),
        (∀ q ∈ pages, func q value = none) →
        (_get_object_from_results pages value func).1 = none
        ∧ (_get_object_from_results pages value func).2.2 = 0) := by
  refine ⟨?_, ?_, ?_⟩
  · intro htok
    induction pre with
    | nil => simp [_get_object_from_results, _get_token, hmatch, htok]
    | cons q pre ih =>
      have hq := hpre q (List.mem_cons_self q pre)
      have hrest := ih (fun p hp => hpre p (List.mem_cons_of_mem q hp))
      obtain ⟨tokq, htokq⟩ := Option.isSome_iff_exists.mp hq.1
      simp [_get_object_from_results, _get_token, hq.2, htokq, hrest]
  · intro tok rest htok
    induction pre with
    | nil => simp [_get_object_from_results, _get_token, hmatch, htok]
    | cons q pre ih =>
      have hq := hpre q (List.mem_cons_self q pre)
      have hrest := ih (fun p hp => hpre p (List.mem_cons_of_mem q hp))
      obtain ⟨tokq, htokq⟩ := Option.isSome_iff_exists.mp hq.1
      simp [_get_object_from_results, _get_token, hq.2, htokq, hrest]
  · intro pages hnone
    induction pages with
    | nil => simp [_get_object_from_results]
    | cons q pages ih =>
      have hq := hnone q (List.mem_cons_self q pages)
      have hrest := ih (fun p hp => hnone p (List.mem_cons_of_mem q hp))
      cases htokq : q.token with
      | none => simp [_get_object_from_results, _get_token, hq, htokq]
      | some tokq => simp [_get_object_from_results, _get_token, hq, htokq, hrest]

theorem get_object_from_results_cancel_discipline_witness :
    _get_object_from_results
        [⟨[⟨⟨"VirtualMachine", "vm-1"⟩, [⟨"name", "other"⟩]⟩], some "tok1"⟩,
         ⟨[⟨⟨"VirtualMachine", "vm-2"⟩, [⟨"name", "target"⟩]⟩], none⟩]
        "target" (fun r v => _get_object_for_value r v)
      = (some ⟨"VirtualMachine", "vm-2"⟩, 1, 0) :=
  (get_object_from_results_cancel_discipline
      (fun r v => _get_object_for_value r v) "target"
      [⟨[⟨⟨"VirtualMachine", "vm-1"⟩, [⟨"name", "other"⟩]⟩], some "tok1"⟩]
      ⟨[⟨⟨"VirtualMachine", "vm-2"⟩, [⟨"name", "target"⟩]⟩], none⟩
      ⟨"VirtualMachine", "vm-2"⟩
      (by decide) (by decide)).1 rfl

/-! ### Theorems: vmdk attach controller synthesis (C3) -/

/-- C3: `get_vmdk_attach_config_spec` with no explicit controller key: the
`"ide"` adapter type yields exactly one device-change entry, the disk, whose
controller key is the fixed pre-existing 200; any other adapter type yields
exactly two entries, the synthesized controller with the provisional key −101
first, then the disk referencing that same key. -/
theorem vmdk_attach_controller_synthesis (dt : String) (fp : Option String)
    (ds : Option Int) (lc : Bool) (un : Option Int) (dn : Option String) :
    ((get_vmdk_attach_config_spec "ide" dt fp ds lc none un dn).deviceChange
        = some [create_virtual_disk_spec 200 dt fp ds lc un dn])
    ∧ (∃ vd, (create_virtual_disk_spec 200 dt fp ds lc un dn).device
          = some (.disk vd) ∧ vd.controllerKey = 200)
    ∧ ∀ adapter_type, adapter_type ≠ "ide" →
        ((get_vmdk_attach_config_spec adapter_type dt fp ds lc none un dn).deviceChange
            = some [create_controller_spec (-101) adapter_type,
                    create_virtual_disk_spec (-101) dt fp ds lc un dn])
        ∧ (∃ c, (create_controller_spec (-101) adapter_type).device
              = some (.controller c) ∧ c.key = -101)
        ∧ (∃ vd, (create_virtual_disk_spec (-101) dt fp ds lc un dn).device
              = some (.disk vd) ∧ vd.controllerKey = -101) := by
  refine ⟨rfl, ⟨_, rfl, rfl⟩, ?_⟩
  intro adapter_type h
  refine ⟨?_, ⟨_, rfl, rfl⟩, ⟨_, rfl, rfl⟩⟩
  simp [get_vmdk_attach_config_spec, h]

theorem vmdk_attach_controller_synthesis_witness :
    (get_vmdk_attach_config_spec "busLogic" "thin" none none false none none
        none).deviceChange
      = some [create_controller_spec (-101) "busLogic",
              create_virtual_disk_spec (-101) "thin" none none false none none] :=
  ((vmdk_attach_controller_synthesis "thin" none none false none none).2.2
    "busLogic" (by decide)).1

/-! ### Theorems: disk-type flags and backing selection (C5) -/

/-- C5 counterexample: the raw-disk-mapping disk mode the code sets is the
string `"independent_persistent"`, not `"independent persistent"` as the
claim states. -/
theorem rdm_disk_mode_counterexample :
    diskModeOfSpec (create_virtual_disk_spec 200 "rdm" none none false none none)
        = some "independent_persistent"
    ∧ diskModeOfSpec (create_virtual_disk_spec 200 "rdm" none none false none none)
        ≠ some "independent persistent" := by
  constructor
  · rfl
  · decide

/-- C5 (amended): `"thin"` sets only `thinProvisioned`, `"eagerZeroedThick"`
sets only `eagerlyScrub`, any other disk type sets neither; `"rdm"`/`"rdmp"`
select raw-disk-mapping backing with compatibility mode
`"virtualMode"`/`"physicalMode"` and disk mode `"independent_persistent"`;
every other kind selects flat-file backing with disk mode `"persistent"`. -/
theorem create_virtual_disk_spec_backing_selection (ck : Int) (dt : String)
    (fp : Option String) (ds : Option Int) (lc : Bool) (un : Option Int)
    (dn : Option String) :
    ∃ vd, (create_virtual_disk_spec ck dt fp ds lc un dn).device = some (.disk vd)
    ∧ (dt = "thin" →
        vd.backing.thinProvisioned = some true ∧ vd.backing.eagerlyScrub = none)
    ∧ (dt = "eagerZeroedThick" →
        vd.backing.eagerlyScrub = some true ∧ vd.backing.thinProvisioned = none)
    ∧ (dt ≠ "thin" → dt ≠ "eagerZeroedThick" →
        vd.backing.thinProvisioned = none ∧ vd.backing.eagerlyScrub = none)
    ∧ (dt = "rdm" →
        vd.backing.kind = "VirtualDiskRawDiskMappingVer1BackingInfo"
        ∧ vd.backing.compatibilityMode = some "virtualMode"
        ∧ vd.backing.diskMode = "independent_persistent")
    ∧ (dt = "rdmp" →
        vd.backing.kind = "VirtualDiskRawDiskMappingVer1BackingInfo"
        ∧ vd.backing.compatibilityMode = some "physicalMode"
        ∧ vd.backing.diskMode = "independent_persistent")
    ∧ (dt ≠ "rdm" → dt ≠ "rdmp" →
        vd.backing.kind = "VirtualDiskFlatVer2BackingInfo"
        ∧ vd.backing.diskMode = "persistent") := by
  refine ⟨_, rfl, ?_, ?_, ?_, ?_, ?_, ?_⟩
  · rintro rfl
    cases lc <;>
      simp [DiskBackingInfo.thinProvisioned, DiskBackingInfo.eagerlyScrub]
  · rintro rfl
    cases lc <;>
      simp [DiskBackingInfo.thinProvisioned, DiskBackingInfo.eagerlyScrub]
  · intro h1 h2
    by_cases hr : dt = "rdm" ∨ dt = "rdmp" <;>
      cases lc <;>
        simp [hr, h1, h2, DiskBackingInfo.thinProvisioned, DiskBackingInfo.eagerlyScrub]
  · rintro rfl
    cases lc <;>
      simp [DiskBackingInfo.kind, DiskBackingInfo.compatibilityMode,
        DiskBackingInfo.diskMode]
  · rintro rfl
    cases lc <;>
      simp [DiskBackingInfo.kind, DiskBackingInfo.compatibilityMode,
        DiskBackingInfo.diskMode]
  · intro h1 h2
    cases lc <;>
      simp [h1, h2, DiskBackingInfo.kind, DiskBackingInfo.diskMode]

theorem create_virtual_disk_spec_backing_selection_witness :
    diskModeOfSpec (create_virtual_disk_spec 200 "thin" none none false none none)
      = some "persistent" := by
  obtain ⟨vd, hdev, -, -, -, -, -, hflat⟩ :=
    create_virtual_disk_spec_backing_selection 200 "thin" none none false none none
  have hmode := (hflat (by decide) (by decide)).2
  simp [diskModeOfSpec, diskOfSpec, hdev, hmode]

/-! ### Theorems: file operation and linked clone (C6) -/

/-- C6: the entry's `fileOperation` is `"create"` exactly when no file path is
given or a linked clone is requested (otherwise unset); for a linked clone the
device's backing has an empty file name and its `parent` is the original
non-clone backing built from the same inputs. -/
theorem disk_spec_file_operation_and_linked_clone (ck : Int) (dt : String)
    (fp : Option String) (ds : Option Int) (lc : Bool) (un : Option Int)
    (dn : Option String) :
    ((create_virtual_disk_spec ck dt fp ds lc un dn).fileOperation
        = if fp = none ∨ lc = true then some "create" else none)
    ∧ (lc = true →
        ∃ vd vd0,
          (create_virtual_disk_spec ck dt fp ds true un dn).device = some (.disk vd)
          ∧ (create_virtual_disk_spec ck dt fp ds false un dn).device = some (.disk vd0)
          ∧ vd.backing.fileName = "" ∧ vd.backing.parent = some vd0.backing) := by
  constructor
  · cases fp <;> cases lc <;> simp [create_virtual_disk_spec]
  · intro _
    refine ⟨_, _, rfl, rfl, ?_, ?_⟩
    · by_cases hr : dt = "rdm" ∨ dt = "rdmp" <;>
        simp [hr, DiskBackingInfo.fileName]
    · by_cases hr : dt = "rdm" ∨ dt = "rdmp" <;>
        simp [hr, DiskBackingInfo.parent]

theorem disk_spec_file_operation_and_linked_clone_witness :
    (create_virtual_disk_spec 200 "preallocated" (some "[ds] a.vmdk") (some 1024)
        true none none).fileOperation = some "create" := by
  have h :=
    (disk_spec_file_operation_and_linked_clone 200 "preallocated"
      (some "[ds] a.vmdk") (some 1024) true none none).1
  simpa using h

/-! ### Theorems: builder purity (C7) -/

/-- C7 counterexample: `create_network_spec` does not leave the caller's
`vif_info` unmodified — with model `"e1000"` it comes back rewritten. -/
theorem create_network_spec_mutation_counterexample :
    (create_network_spec
        { vif_model := "e1000", network_ref := none, network_name := "br100",
          mac_address := "00:00:00:00:00:01", iface_id := "" }).2
      ≠ { vif_model := "e1000", network_ref := none, network_name := "br100",
          mac_address := "00:00:00:00:00:01", iface_id := "" } := by
  decide

/-- C7 (amended): `create_network_spec` is deterministic — equal inputs give
equal payloads — and leaves its argument unmodified except that a `vif_info`
with model `"e1000"` is rewritten in place to model `"VirtualE1000"`. -/
theorem create_network_spec_frame (vif_info : VifInfo) :
    ((create_network_spec vif_info).2
        = if vif_info.vif_model = "e1000"
          then { vif_info with vif_model := "VirtualE1000" } else vif_info)
    ∧ (vif_info.vif_model ≠ "e1000" → (create_network_spec vif_info).2 = vif_info)
    ∧ (∀ w, w = vif_info → create_network_spec w = create_network_spec vif_info) := by
  refine ⟨?_, ?_, fun w h => by rw [h]⟩
  · by_cases h : vif_info.vif_model = "e1000" <;> simp [create_network_spec, h]
  · intro h
    simp [create_network_spec, h]

theorem create_network_spec_frame_witness :
    (create_network_spec
        { vif_model := "VirtualVmxnet", network_ref := none, network_name := "br100",
          mac_address := "00:00:00:00:00:01", iface_id := "" }).2
      = { vif_model := "VirtualVmxnet", network_ref := none, network_name := "br100",
          mac_address := "00:00:00:00:00:01", iface_id := "" } :=
  (create_network_spec_frame
      { vif_model := "VirtualVmxnet", network_ref := none, network_name := "br100",
        mac_address := "00:00:00:00:00:01", iface_id := "" }).2.1 (by decide)

/-! ### Theorems: provisional device keys (C9) -/

theorem create_network_spec_device_key (vif_info : VifInfo) :
    ((create_network_spec vif_info).1).device.map Device.key = some (-47) := rfl

theorem vm_create_spec_device_keys (inst : Instance) (data_store_name : String)
    (os_type : String) :
    ∀ vif_infos : List VifInfo,
      payload_device_keys (get_vm_create_spec inst data_store_name vif_infos os_type)
        = vif_infos.map (fun _ => (-47 : Int))
  | [] => rfl
  | vif_info :: rest => by
    have ih := vm_create_spec_device_keys inst data_store_name os_type rest
    simp only [payload_device_keys, get_vm_create_spec, Option.getD_some,
      List.map_cons, List.filterMap_cons] at ih ⊢
    simp [create_network_spec_device_key, ih]

/-- C9 counterexample: a create payload with two network interfaces holds two
freshly added devices whose provisional keys are both −47 — the keys of the
newly added devices of one payload are not pairwise distinct. -/
theorem provisional_device_keys_counterexample :
    (payload_device_keys (get_vm_create_spec ⟨"uuid-1", "inst-1", 1, 128⟩ "ds1"
          [{ vif_model := "VirtualE1000", network_ref := none, network_name := "br100",
             mac_address := "00:00:00:00:00:01", iface_id := "" },
           { vif_model := "VirtualE1000", network_ref := none, network_name := "br200",
             mac_address := "00:00:00:00:00:02", iface_id := "" }] "otherGuest")
        = [-47, -47])
    ∧ ¬ (payload_device_keys (get_vm_create_spec ⟨"uuid-1", "inst-1", 1, 128⟩ "ds1"
          [{ vif_model := "VirtualE1000", network_ref := none, network_name := "br100",
             mac_address := "00:00:00:00:00:01", iface_id := "" },
           { vif_model := "VirtualE1000", network_ref := none, network_name := "br200",
             mac_address := "00:00:00:00:00:02", iface_id := "" }] "otherGuest")).Nodup := by
  constructor
  · rfl
  · decide

/-- C9 (amended): every freshly added device carries its category's fixed
sentinel — controller −101, disk −100, network adapter −47, cdrom −1 — all
negative and pairwise distinct across categories, so the disk-attach and
cdrom-attach payloads carry pairwise distinct negative keys; but
`get_vm_create_spec` gives every network adapter the same −47, so a payload
with two or more interfaces contains duplicate keys. -/
theorem provisional_device_keys (inst : Instance) (data_store_name : String)
    (os_type : String) (vif_info : VifInfo) (vif_infos : List VifInfo)
    (dsr : MOR) (ckey : Int) (cfp : String) (cun : Int) (ck : Int) (dt : String)
    (fp : Option String) (ds : Option Int) (lc : Bool) (un : Option Int)
    (dn : Option String) :
    (((create_network_spec vif_info).1).device.map Device.key = some (-47))
    ∧ ((create_virtual_disk_spec ck dt fp ds lc un dn).device.map Device.key
        = some (-100))
    ∧ ((create_virtual_cdrom_spec dsr ckey cfp cun).device.map Device.key
        = some (-1))
    ∧ (payload_device_keys (get_vmdk_attach_config_spec "ide" dt fp ds lc none un dn)
        = [-100])
    ∧ (∀ adapter_type, adapter_type ≠ "ide" →
        payload_device_keys
            (get_vmdk_attach_config_spec adapter_type dt fp ds lc none un dn)
          = [-101, -100]
        ∧ ([-101, -100] : List Int).Nodup ∧ ∀ k ∈ ([-101, -100] : List Int), k < 0)
    ∧ (payload_device_keys (get_cdrom_attach_config_spec dsr cfp cun) = [-1])
    ∧ (payload_device_keys (get_vm_create_spec inst data_store_name vif_infos os_type)
        = vif_infos.map (fun _ => (-47 : Int))) := by
  refine ⟨rfl, rfl, rfl, rfl, ?_, rfl,
    vm_create_spec_device_keys inst data_store_name os_type vif_infos⟩
  intro adapter_type h
  refine ⟨?_, by decide, by decide⟩
  simp [payload_device_keys, get_vmdk_attach_config_spec, h,
    create_controller_spec, create_virtual_disk_spec, Device.key]

theorem provisional_device_keys_witness :
    payload_device_keys
        (get_vmdk_attach_config_spec "lsiLogic" "preallocated" none none false
          none none none)
      = [-101, -100] :=
  ((provisional_device_keys ⟨"u", "n", 1, 1⟩ "ds" "otherGuest"
      { vif_model := "VirtualE1000", network_ref := none, network_name := "b",
        mac_address := "m", iface_id := "" } [] ⟨"Datastore", "ds-1"⟩ 200 "f" 0
      0 "preallocated" none none false none none).2.2.2.2.1 "lsiLogic"
    (by decide)).1

/-! ### Theorems: extra-config option entries (C10) -/

theorem get_vm_extra_config_spec_foldl (opts : List (String × String)) :
    ∀ (pre : List OptionValue) (cs : VirtualMachineConfigSpec),
      (opts.foldl
        (fun (acc : List OptionValue × VirtualMachineConfigSpec) kv =>
          let opt : OptionValue := ⟨kv.1, kv.2⟩
          let extra_config := acc.1 ++ [opt]
          (extra_config, { acc.2 with extraConfig := some extra_config }))
        (pre, cs))
      = (pre ++ opts.map (fun kv => ⟨kv.1, kv.2⟩),
         if opts = [] then cs
         else { cs with
                extraConfig := some (pre ++ opts.map (fun kv => ⟨kv.1, kv.2⟩)) }) := by
  induction opts with
  | nil => intro pre cs; simp
  | cons kv opts ih =>
    intro pre cs
    simp only [List.foldl_cons, List.map_cons]
    rw [ih]
    rcases opts with - | ⟨kv2, opts⟩ <;> simp

/-- C10: with a non-empty mapping, `get_vm_extra_config_spec` assigns
`extraConfig` one option entry per pair, in order; with an empty mapping the
field is never assigned (it keeps the factory default, not an empty list),
because the assignment happens inside the per-pair loop. -/
theorem extra_config_spec_assignment (extra_opts : List (String × String)) :
    (extra_opts ≠ [] →
      (get_vm_extra_config_spec extra_opts).extraConfig
        = some (extra_opts.map (fun kv => ⟨kv.1, kv.2⟩)))
    ∧ ((get_vm_extra_config_spec []).extraConfig = none)
    ∧ ((get_vm_extra_config_spec []).extraConfig ≠ some []) := by
  refine ⟨?_, rfl, by decide⟩
  intro h
  simp [get_vm_extra_config_spec, get_vm_extra_config_spec_foldl, h]

theorem extra_config_spec_assignment_witness :
    (get_vm_extra_config_spec [("mykey", "v1"), ("otherkey", "v2")]).extraConfig
      = some [⟨"mykey", "v1"⟩, ⟨"otherkey", "v2"⟩] :=
  (extra_config_spec_assignment [("mykey", "v1"), ("otherkey", "v2")]).1 (by decide)

/-! ### Theorems: VM lookup fallback (C4) -/

/-- C4: `get_vm_ref` first tries the uuid match; on a miss it falls back to
the name match and returns that reference; when both miss it raises
`InstanceNotFound` keyed by the instance's uuid. -/
theorem get_vm_ref_fallback (vms : List (RetrieveResult (ObjectContent String)))
    (inst : Instance) :
    (∀ r, get_vm_ref_from_uuid vms inst.uuid = some r →
      get_vm_ref vms inst = .ok r)
    ∧ (get_vm_ref_from_uuid vms inst.uuid = none →
        ∀ r, get_vm_ref_from_name vms inst.name = some r →
          get_vm_ref vms inst = .ok r)
    ∧ (get_vm_ref_from_uuid vms inst.uuid = none →
        get_vm_ref_from_name vms inst.name = none →
        get_vm_ref vms inst = .error (.instanceNotFound inst.uuid)) := by
  refine ⟨?_, ?_, ?_⟩
  · intro r h
    simp [get_vm_ref, h]
  · intro h r h2
    simp [get_vm_ref, h, h2]
  · intro h h2
    simp [get_vm_ref, h, h2]

theorem get_vm_ref_fallback_witness :
    get_vm_ref [⟨[⟨⟨"VirtualMachine", "vm-9"⟩, [⟨"name", "inst-name"⟩]⟩], none⟩]
        ⟨"uuid-x", "inst-name", 1, 16⟩
      = .ok ⟨"VirtualMachine", "vm-9"⟩ :=
  (get_vm_ref_fallback
      [⟨[⟨⟨"VirtualMachine", "vm-9"⟩, [⟨"name", "inst-name"⟩]⟩], none⟩]
      ⟨"uuid-x", "inst-name", 1, 16⟩).2.1 (by decide)
    ⟨"VirtualMachine", "vm-9"⟩ (by decide)

/-! ### Theorems: datastore selection (C8) -/

/-- C8: `get_datastore_ref_and_name` returns the reference, name, capacity
and free space of the first datastore that is of type VMFS or NFS, is
accessible, and matches the optional name pattern — first within a page, then
across the token-linked pages — and when every page is exhausted without a
qualifying datastore it raises `DatastoreNotFound`, whose message mentions
the pattern exactly when a pattern was supplied. -/
theorem datastore_selection_first_match_and_not_found (regex : Option DSRegex) :
    (∀ (elem : ObjectContent PropVal) (objs : List (ObjectContent PropVal)),
      (((propset_get elem.propSet "summary.type" = PropVal.s "VMFS"
          ∨ propset_get elem.propSet "summary.type" = PropVal.s "NFS")
        ∧ (propset_get elem.propSet "summary.accessible").truthy = true
        ∧ (∀ r, regex = some r →
            r.matchfn (propset_get elem.propSet "summary.name").asString = true)) →
        _get_datastore_ref_and_name (elem :: objs) regex
          = some (elem.obj, propset_get elem.propSet "summary.name",
                  propset_get elem.propSet "summary.capacity",
                  propset_get elem.propSet "summary.freeSpace"))
      ∧ (¬ ((propset_get elem.propSet "summary.type" = PropVal.s "VMFS"
          ∨ propset_get elem.propSet "summary.type" = PropVal.s "NFS")
        ∧ (propset_get elem.propSet "summary.accessible").truthy = true
        ∧ (∀ r, regex = some r →
            r.matchfn (propset_get elem.propSet "summary.name").asString = true)) →
        _get_datastore_ref_and_name (elem :: objs) regex
          = _get_datastore_ref_and_name objs regex))
    ∧ (∀ (pre : List (RetrieveResult (ObjectContent PropVal))) page rest r,
        (∀ q ∈ pre, q.token.isSome
          ∧ _get_datastore_ref_and_name q.objects regex = none) →
        _get_datastore_ref_and_name page.objects regex = some r →
        get_datastore_ref_and_name (pre ++ page :: rest) regex = .ok r)
    ∧ (∀ (pre : List (RetrieveResult (ObjectContent PropVal))) lastPage,
        (∀ q ∈ pre, q.token.isSome
          ∧ _get_datastore_ref_and_name q.objects regex = none) →
        lastPage.token = none →
        _get_datastore_ref_and_name lastPage.objects regex = none →
        get_datastore_ref_and_name (pre ++ [lastPage]) regex
          = .error (.datastoreNotFound (regex.map (fun r =>
              "Datastore regex " ++ r.pattern
                ++ " did not match any datastores")))) := by
  refine ⟨?_, ?_, ?_⟩
  · intro elem objs
    constructor
    · rintro ⟨h1, h2, h3⟩
      cases regex with
      | none =>
        simp only [_get_datastore_ref_and_name]
        rw [if_pos ⟨h1, h2⟩]
        simp
      | some r =>
        have hm := h3 r rfl
        simp only [_get_datastore_ref_and_name]
        rw [if_pos ⟨h1, h2⟩]
        simp [hm]
    · intro hneg
      cases regex with
      | none =>
        have houter : ¬ ((propset_get elem.propSet "summary.type" = PropVal.s "VMFS"
            ∨ propset_get elem.propSet "summary.type" = PropVal.s "NFS")
          ∧ (propset_get elem.propSet "summary.accessible").truthy = true) := by
          intro hab
          exact hneg ⟨hab.1, hab.2, fun r hr => nomatch hr⟩
        simp only [_get_datastore_ref_and_name]
        rw [if_neg houter]
      | some r =>
        by_cases houter : ((propset_get elem.propSet "summary.type" = PropVal.s "VMFS"
            ∨ propset_get elem.propSet "summary.type" = PropVal.s "NFS")
          ∧ (propset_get elem.propSet "summary.accessible").truthy = true)
        · have hm : ¬ (r.matchfn
              (propset_get elem.propSet "summary.name").asString = true) := by
            intro hm
            refine hneg ⟨houter.1, houter.2, fun r' hr' => ?_⟩
            injection hr' with h
            exact h ▸ hm
          simp only [_get_datastore_ref_and_name]
          rw [if_pos houter]
          simp [hm]
        · simp only [_get_datastore_ref_and_name]
          rw [if_neg houter]
  · intro pre
    induction pre with
    | nil =>
      intro page rest r _ hmatch
      simp [get_datastore_ref_and_name, hmatch]
    | cons q pre ih =>
      intro page rest r hpre hmatch
      have hq := hpre q (List.mem_cons_self q pre)
      obtain ⟨tokq, htokq⟩ := Option.isSome_iff_exists.mp hq.1
      have := ih page rest r (fun p hp => hpre p (List.mem_cons_of_mem q hp)) hmatch
      simp [get_datastore_ref_and_name, _get_token, hq.2, htokq, this]
  · intro pre
    induction pre with
    | nil =>
      intro lastPage _ htok hnone
      cases regex with
      | none => simp [get_datastore_ref_and_name, _get_token, htok, hnone]
      | some r => simp [get_datastore_ref_and_name, _get_token, htok, hnone]
    | cons q pre ih =>
      intro lastPage hpre htok hnone
      have hq := hpre q (List.mem_cons_self q pre)
      obtain ⟨tokq, htokq⟩ := Option.isSome_iff_exists.mp hq.1
      have := ih lastPage (fun p hp => hpre p (List.mem_cons_of_mem q hp)) htok hnone
      simp [get_datastore_ref_and_name, _get_token, hq.2, htokq, this]

theorem datastore_selection_first_match_and_not_found_witness :
    get_datastore_ref_and_name
        [⟨[⟨⟨"Datastore", "ds-1"⟩,
            [⟨"summary.type", .s "CIFS"⟩, ⟨"summary.name", .s "ds1"⟩,
             ⟨"summary.capacity", .i 10⟩, ⟨"summary.freeSpace", .i 5⟩,
             ⟨"summary.accessible", .b true⟩]⟩], some "tok"⟩,
         ⟨[⟨⟨"Datastore", "ds-2"⟩,
            [⟨"summary.type", .s "VMFS"⟩, ⟨"summary.name", .s "ds2"⟩,
             ⟨"summary.capacity", .i 100⟩, ⟨"summary.freeSpace", .i 50⟩,
             ⟨"summary.accessible", .b true⟩]⟩], none⟩]
        (some ⟨"ds2", fun n => n == "ds2"⟩)
      = .ok (⟨"Datastore", "ds-2"⟩, .s "ds2", .i 100, .i 50) :=
  (datastore_selection_first_match_and_not_found
      (some ⟨"ds2", fun n => n == "ds2"⟩)).2.1
    [⟨[⟨⟨"Datastore", "ds-1"⟩,
        [⟨"summary.type", .s "CIFS"⟩, ⟨"summary.name", .s "ds1"⟩,
         ⟨"summary.capacity", .i 10⟩, ⟨"summary.freeSpace", .i 5⟩,
         ⟨"summary.accessible", .b true⟩]⟩], some "tok"⟩]
    ⟨[⟨⟨"Datastore", "ds-2"⟩,
        [⟨"summary.type", .s "VMFS"⟩, ⟨"summary.name", .s "ds2"⟩,
         ⟨"summary.capacity", .i 100⟩, ⟨"summary.freeSpace", .i 50⟩,
         ⟨"summary.accessible", .b true⟩]⟩], none⟩
    [] (⟨"Datastore", "ds-2"⟩, .s "ds2", .i 100, .i 50)
    (by decide) (by decide)

end VmUtil
